import Mathlib

/-!
Verification of the CRO audit report generator
(`src/skills/cro-audit/scripts/generate_report.py`).

The Python module is a pure, single-pass transformation from a structured
audit-findings document to one HTML string.  We embed its data model and
its computations shallowly:

* JSON dicts with optional fields become structures with `Option` fields;
  `d.get(k, default)` becomes `Option.getD`.
* JSON numbers become `ℚ`; the Python builtin `round` (round half to even)
  becomes `bround`, and `round(x, 2)` becomes `round2`.
* The `defaultdict` accumulators of the aggregators become function-valued
  states updated pointwise, folded over pages and findings exactly as the
  Python loops do.
* The helpers imported from `report_utils` (`encode_image`, the color and
  label tables, the SVG widgets) are not part of the given sources; they
  are modelled from the specification, with the file system as an explicit
  map from paths to data URIs.  Each such definition carries a
  `Modelled from the spec:` comment.
* The two constant blobs of the output (the stylesheet and the static
  JavaScript scaffolding) are input-independent string constants; their
  literal text is abbreviated, which no claim observes.
-/

/-- Python builtin `round` on an exact rational: round half to even. -/
def bround (q : ℚ) : ℤ :=
  let f := ⌊q⌋
  let r := q - f
  if r < 1/2 then f
  else if r > 1/2 then f + 1
  else if f % 2 = 0 then f else f + 1

/-- Python `round(x, 2)`: round to two decimal places, half to even. -/
def round2 (q : ℚ) : ℚ :=
  (bround (q * 100) : ℚ) / 100

/-- A finding record: every field of the JSON schema is optional. -/
structure Finding where
  criterion_id : Option String := none
  criterion_name : Option String := none
  score : Option ℚ := none
  issue : Option String := none
  recommendation : Option String := none
  priority : Option String := none
  lens : Option String := none

/-- A page record of the input document. -/
structure Page where
  page_type : Option String := none
  url : Option String := none
  page_score : Option ℚ := none
  desktop_screenshot_path : Option String := none
  mobile_screenshot_path : Option String := none
  findings : Option (List Finding) := none

/-- An entry of `top_findings`. -/
structure TopFinding where
  title : Option String := none
  priority : Option String := none
  impact : Option String := none
  description : Option String := none

/-- An entry of `cross_cutting_issues`. -/
structure CrossIssue where
  title : Option String := none
  description : Option String := none
  affected_pages : Option (List String) := none
  priority : Option String := none

/-- An entry of one `action_plan` bucket. -/
structure ActionItem where
  action : Option String := none
  page : Option String := none
  impact : Option String := none
  effort : Option String := none

/-- The `action_plan` object with its three buckets. -/
structure ActionPlan where
  quick_wins : Option (List ActionItem) := none
  medium_term : Option (List ActionItem) := none
  strategic : Option (List ActionItem) := none

/-- The whole input document. -/
structure AuditData where
  site_url : Option String := none
  site_name : Option String := none
  platform : Option String := none
  audit_date : Option String := none
  overall_score : Option ℚ := none
  executive_summary : Option String := none
  top_findings : Option (List TopFinding) := none
  pages : Option (List Page) := none
  cross_cutting_issues : Option (List CrossIssue) := none
  action_plan : Option ActionPlan := none

/-- All findings of all pages in order (`for page in pages: for f in page.get("findings", [])`). -/
def allFindings (pages : List Page) : List Finding :=
  pages.flatMap (fun p => p.findings.getD [])

/-- One step of `compute_lens_averages`: state is the pair
(`totals : defaultdict(float)`, `counts : defaultdict(int)`). -/
def lens_step (tc : (String → ℚ) × (String → ℕ)) (f : Finding) :
    (String → ℚ) × (String → ℕ) :=
  let lens := f.lens.getD ""
  if lens = "" then tc
  else
    (fun k => if k = lens then tc.1 k + f.score.getD 0 else tc.1 k,
     fun k => if k = lens then tc.2 k + 1 else tc.2 k)

/-- The six LIFT lens names, in the canonical display order used by the code. -/
def lens_keys : List String :=
  ["clarity", "relevance", "friction", "anxiety", "urgency", "technical"]

/-- `compute_lens_averages`: average score per LIFT lens across all findings.
The returned association list mirrors the Python dict comprehension over
`lens_keys`, so it is keyed by exactly those six names in order. -/
def compute_lens_averages (pages : List Page) : List (String × ℚ) :=
  let tc := pages.foldl (fun acc p => (p.findings.getD []).foldl lens_step acc)
    (fun _ => 0, fun _ => 0)
  lens_keys.map fun lens =>
    (lens, if tc.2 lens ≠ 0 then round2 (tc.1 lens / tc.2 lens) else 0)

/-- One step of `compute_score_distribution`:
`s = int(round(f.get("score", 3))); s = max(1, min(5, s)); dist[s] += 1`. -/
def score_dist_step (dist : ℤ → ℕ) (f : Finding) : ℤ → ℕ :=
  let s := bround (f.score.getD 3)
  let s2 := max 1 (min 5 s)
  fun k => if k = s2 then dist k + 1 else dist k

/-- `compute_score_distribution`: count findings per rounded clamped score.
The Python dict `{1:0,...,5:0}` is modelled as a function that is zero
away from the keys ever incremented. -/
def compute_score_distribution (pages : List Page) : ℤ → ℕ :=
  pages.foldl (fun dist p => (p.findings.getD []).foldl score_dist_step dist)
    (fun _ => 0)

/-- The rounded clamped score a finding is bucketed under. -/
def scoreKey (f : Finding) : ℤ :=
  max 1 (min 5 (bround (f.score.getD 3)))

/-- The four priority tiers, the keys of the Python dict `{"P0":0,...,"P3":0}`. -/
def priority_keys : List String := ["P0", "P1", "P2", "P3"]

/-- One step of `compute_priority_distribution`:
`p = f.get("priority", "P2"); if p in dist: dist[p] += 1`. -/
def priority_dist_step (dist : String → ℕ) (f : Finding) : String → ℕ :=
  let p := f.priority.getD "P2"
  if p ∈ priority_keys then
    fun k => if k = p then dist k + 1 else dist k
  else dist

/-- `compute_priority_distribution`: count findings per priority level. -/
def compute_priority_distribution (pages : List Page) : String → ℕ :=
  pages.foldl (fun dist p => (p.findings.getD []).foldl priority_dist_step dist)
    (fun _ => 0)

/-! ## Helpers imported from `report_utils` (modelled from the spec) -/

/-- Modelled from the spec: `encode_image` (report_utils, not in src/) turns a
local image file path into an embedded data URI, and returns the empty string
if the file is absent or unreadable.  The file system is an explicit map from
paths to data URIs; an unreadable or missing file is `none`. -/
def encode_image (fs : String → Option String) (path : String) : String :=
  (fs path).getD ""

/-- Integer decimal digits of a natural number, used by the numeric formatters. -/
def natStr (n : ℕ) : String := toString n

/-- Rendering of a numeric JSON value, as Python would interpolate it.
Integral values print without a fractional part; the decimal rendering of
non-integral values is abstracted by the exact-rational printer. -/
def ratRepr (q : ℚ) : String :=
  if q.den = 1 then toString q.num else toString q

/-- Python `f"{x:.1f}"`: one decimal place, round half to even
(negative values never reach this formatter in the program). -/
def fmt1 (q : ℚ) : String :=
  let n := (bround (q * 10)).toNat
  natStr (n / 10) ++ "." ++ natStr (n % 10)

/-- Modelled from the spec: `score_color` (report_utils, not in src/) is a
pure table-driven lookup from a numeric score to a display color, by the
5-bucket ramp (at least 4.5 excellent, then steps of one, below 1.5 critical). -/
def score_color (s : ℚ) : String :=
  if 4.5 ≤ s then "#22c55e"
  else if 3.5 ≤ s then "#84cc16"
  else if 2.5 ≤ s then "#f59e0b"
  else if 1.5 ≤ s then "#f97316"
  else "#ef4444"

/-- Modelled from the spec: `priority_color` (report_utils, not in src/) is a
pure lookup from a priority tier to a color, P0 most severe to P3 least,
with a neutral fallback for anything else. -/
def priority_color (p : String) : String :=
  if p = "P0" then "#dc2626"
  else if p = "P1" then "#ea580c"
  else if p = "P2" then "#ca8a04"
  else if p = "P3" then "#16a34a"
  else "#6b7280"

/-- Modelled from the spec: `priority_label` (report_utils, not in src/) is a
pure lookup from a priority tier to its display label. -/
def priority_label (p : String) : String :=
  if p = "P0" then "Critical"
  else if p = "P1" then "High"
  else if p = "P2" then "Medium"
  else if p = "P3" then "Low"
  else ""

/-- Modelled from the spec: `lens_icon` (report_utils, not in src/) is a pure
lookup from a lens category to an icon glyph (HTML entity), empty otherwise. -/
def lens_icon (l : String) : String :=
  if l = "clarity" then "&#128269; clarity"
  else if l = "relevance" then "&#127919; relevance"
  else if l = "friction" then "&#9881; friction"
  else if l = "anxiety" then "&#128565; anxiety"
  else if l = "urgency" then "&#9200; urgency"
  else if l = "technical" then "&#128295; technical"
  else ""

/-- Modelled from the spec: `svg_score_gauge` (report_utils, not in src/)
renders a numeric score as a visual SVG gauge; the score value appears as
the gauge text, one decimal place. -/
def svg_score_gauge (score : ℚ) (size : ℕ) (light_track : Bool := false) : String :=
  "<svg class=\"score-gauge\" width=\"" ++ natStr size ++ "\" data-light=\""
    ++ (if light_track then "1" else "0") ++ "\">" ++ fmt1 score ++ "</svg>"

/-- Modelled from the spec: `svg_score_ring` (report_utils, not in src/)
renders a small SVG ring colored by the score. -/
def svg_score_ring (score : ℚ) (size : ℕ) : String :=
  "<svg class=\"score-ring\" width=\"" ++ natStr size ++ "\" data-color=\""
    ++ score_color score ++ "\"></svg>"

/-- Modelled from the spec: `svg_score_bar` (report_utils, not in src/)
renders a small SVG bar filled proportionally to the score. -/
def svg_score_bar (score : ℚ) (width : ℕ) : String :=
  "<svg class=\"score-bar\" width=\"" ++ natStr width ++ "\" data-color=\""
    ++ score_color score ++ "\"></svg>"

/-- Modelled from the spec: `svg_priority_donut` (report_utils, not in src/)
renders the four priority counts as an SVG donut chart. -/
def svg_priority_donut (dist : String → ℕ) (size : ℕ) : String :=
  "<svg class=\"priority-donut\" width=\"" ++ natStr size ++ "\" data-counts=\""
    ++ natStr (dist "P0") ++ "," ++ natStr (dist "P1") ++ ","
    ++ natStr (dist "P2") ++ "," ++ natStr (dist "P3") ++ "\"></svg>"

/-- `json.dumps` of a JSON string (escaping of special characters elided;
no claim exercises it). -/
def json_str (s : String) : String := "\"" ++ s ++ "\""

/-- The comma-and-space separated items of a JSON array (the default
separator of `json.dumps`). -/
def json_items : List String → String
  | [] => ""
  | [x] => x
  | x :: xs => x ++ ", " ++ json_items xs

/-- `json.dumps` of a JSON array from already-rendered element texts. -/
def json_list (xs : List String) : String :=
  "[" ++ json_items xs ++ "]"

/-- The runtime environment of one invocation: the current date as
`datetime.now().strftime("%Y-%m-%d")` would print it, and the file system
read by `encode_image`. -/
structure Env where
  now : String
  fs : String → Option String

/-! ## Renderer fragments (insignificant indentation and newlines of the
Python f-strings are normalized away; every interpolated value is kept). -/

/-- The header (`header_html` f-string): gauge, site identity, and the three
summary counts (pages, findings, critical or high findings). -/
def header_html (gauge site_name site_url platform audit_date : String)
    (total_pages total_findings critical_high : ℕ) : String :=
  "<div class=\"header-accent\"></div><header><div class=\"header-inner\"><div class=\"header-gauge\">"
  ++ gauge
  ++ "</div><div class=\"header-info\"><h1>CRO Audit Report</h1><div class=\"header-meta\">"
  ++ site_name
  ++ " &bull; <a href=\"" ++ site_url ++ "\" target=\"_blank\" style=\"color:rgba(255,255,255,0.8);\">"
  ++ site_url
  ++ "</a> &bull; " ++ platform ++ " &bull; " ++ audit_date
  ++ "</div><div class=\"header-stats\"><div class=\"header-stat\"><span class=\"stat-value\">"
  ++ natStr total_pages
  ++ "</span><span class=\"stat-label\">Pages</span></div><div class=\"header-stat\"><span class=\"stat-value\">"
  ++ natStr total_findings
  ++ "</span><span class=\"stat-label\">Findings</span></div><div class=\"header-stat\"><span class=\"stat-value\">"
  ++ natStr critical_high
  ++ "</span><span class=\"stat-label\">Critical/High</span></div></div></div></div></header>"

/-- The inline generator expression of the header:
`sum(1 for p in pages for f in p.get("findings",[]) if f.get("priority") in ("P0","P1"))`.
A finding with no priority key yields `None`, which is not in the pair. -/
def critical_high_count (pages : List Page) : ℕ :=
  (pages.map fun p =>
    (p.findings.getD []).countP
      (fun f => f.priority == some "P0" || f.priority == some "P1")).sum

/-- The executive summary block, omitted for a falsy (empty) summary. -/
def exec_html (executive_summary : String) : String :=
  if executive_summary = "" then ""
  else
    "<div class=\"section-card executive-summary animate-in\"><div class=\"section-title\">Executive Summary</div><p>"
    ++ executive_summary ++ "</p></div>"

/-- The four analytics panels; three are chart canvases filled by the script
block, the fourth holds the priority donut. -/
def analytics_html (donut_html : String) : String :=
  "<div class=\"analytics-grid\"><div class=\"chart-card animate-in\"><h3>Page Scores</h3><p class=\"chart-subtitle\">Conversion optimization score per page type</p><div class=\"chart-wrapper\"><canvas id=\"chartPageScores\"></canvas></div></div><div class=\"chart-card animate-in\"><h3>LIFT Lens Analysis</h3><p class=\"chart-subtitle\">Average score across the 6 optimization lenses</p><div class=\"chart-wrapper\"><canvas id=\"chartLensRadar\"></canvas></div></div><div class=\"chart-card animate-in\"><h3>Score Distribution</h3><p class=\"chart-subtitle\">How findings spread across 1-5 severity levels</p><div class=\"chart-wrapper\"><canvas id=\"chartScoreDist\"></canvas></div></div><div class=\"chart-card animate-in\"><h3>Priority Breakdown</h3><p class=\"chart-subtitle\">Findings by priority level (P0-P3)</p><div class=\"donut-wrapper\">"
  ++ donut_html ++ "</div></div></div>"

/-- One card of the top findings section. -/
def render_top_finding (f : TopFinding) : String :=
  let pc := priority_color (f.priority.getD "P2")
  "<div class=\"finding-card animate-in\" style=\"border-left-color:" ++ pc
  ++ ";\"><div class=\"finding-header\"><span class=\"priority-badge\" style=\"background:" ++ pc ++ ";\">"
  ++ f.priority.getD "P2" ++ " &middot; " ++ priority_label (f.priority.getD "P2")
  ++ "</span><strong>" ++ f.title.getD ""
  ++ "</strong></div><p style=\"color:#475569;font-size:0.9rem;\">"
  ++ f.description.getD "" ++ "</p></div>"

/-- The cards accumulated by `for f in top_findings[:5]`. -/
def top_findings_entries (tf : List TopFinding) : List String :=
  (tf.take 5).map render_top_finding

/-- The concatenated top findings cards (`top_findings_html` accumulator). -/
def top_findings_html (tf : List TopFinding) : String :=
  String.join (top_findings_entries tf)

/-- The top findings section, omitted when its body is falsy (empty). -/
def top_section (tf : List TopFinding) : String :=
  if top_findings_html tf = "" then ""
  else
    "<div class=\"section-card animate-in\"><div class=\"section-title\">Top Priority Findings</div>"
    ++ top_findings_html tf ++ "</div>"

/-- `page_type.lower().replace(" ", "-").replace("/", "-")`. -/
def page_id_of (page_type : String) : String :=
  ((page_type.toLower).replace " " "-").replace "/" "-"

/-- `page.get("page_type", f"Page {i+1}")`. -/
def default_page_type (i : ℕ) (page : Page) : String :=
  page.page_type.getD ("Page " ++ natStr (i + 1))

/-- One sticky navigation link (`page_nav_items` loop body). -/
def render_nav_link (i : ℕ) (page : Page) : String :=
  let page_type := default_page_type i page
  let page_id := page_id_of page_type
  let page_score := page.page_score.getD 0
  let ring := svg_score_ring page_score 20
  "<a href=\"#" ++ page_id ++ "\" class=\"page-nav-link\" data-target=\"" ++ page_id ++ "\">"
  ++ ring ++ " " ++ page_type ++ " <span style=\"font-size:0.8rem;font-weight:700;color:"
  ++ score_color page_score ++ ";\">" ++ fmt1 page_score ++ "</span></a>"

/-- The navigation links, one per page, in page order. -/
def page_nav_links (pages : List Page) : List String :=
  pages.enum.map fun ip => render_nav_link ip.1 ip.2

/-- The accumulated `page_nav_items` string. -/
def page_nav_items (pages : List Page) : String :=
  String.join (page_nav_links pages)

/-- The navigation bar, omitted when there are no items (falsy string). -/
def page_nav_html (pages : List Page) : String :=
  if page_nav_items pages = "" then ""
  else "<nav class=\"page-nav\">" ++ page_nav_items pages ++ "</nav>"

/-- The screenshot tab buttons appended to `tabs_html`: one per present
screenshot, the desktop one (or, failing that, the mobile one) active. -/
def screenshot_tab_buttons (page_id : String) (has_desktop has_mobile : Bool) :
    List String :=
  (if has_desktop then
    ["<button class=\"screenshot-tab active\" onclick=\"switchScreenshot(this, \x27"
      ++ page_id ++ "-desktop\x27)\">Desktop</button>"]
   else []) ++
  (if has_mobile then
    ["<button class=\"screenshot-tab" ++ (if has_desktop then "" else " active")
      ++ "\" onclick=\"switchScreenshot(this, \x27" ++ page_id ++ "-mobile\x27)\">Mobile</button>"]
   else [])

/-- The desktop screenshot panel. -/
def desktop_panel (page_id page_type desktop_img : String) : String :=
  "<div id=\"" ++ page_id
  ++ "-desktop\" class=\"screenshot-panel active\"><div class=\"device-frame\"><div class=\"device-chrome\"><span class=\"device-dot red\"></span><span class=\"device-dot yellow\"></span><span class=\"device-dot green\"></span></div><img src=\""
  ++ desktop_img ++ "\" alt=\"" ++ page_type ++ " desktop view\" loading=\"lazy\"></div></div>"

/-- The mobile screenshot panel, active only when it is the only panel. -/
def mobile_panel (page_id page_type mobile_img : String) (has_desktop : Bool) : String :=
  "<div id=\"" ++ page_id ++ "-mobile\" class=\"screenshot-panel"
  ++ (if has_desktop then "" else " active")
  ++ "\"><div class=\"device-frame mobile\"><div class=\"device-chrome\"></div><img src=\""
  ++ mobile_img ++ "\" alt=\"" ++ page_type ++ " mobile view\" loading=\"lazy\"></div></div>"

/-- The screenshot panels appended to `panels_html`. -/
def screenshot_panels (page_id page_type desktop_img mobile_img : String)
    (has_desktop has_mobile : Bool) : List String :=
  (if has_desktop then [desktop_panel page_id page_type desktop_img] else []) ++
  (if has_mobile then [mobile_panel page_id page_type mobile_img has_desktop] else [])

/-- The screenshot area of a page section: tab bar plus panels whenever at
least one screenshot is present, empty otherwise. -/
def screenshot_html (page_id page_type desktop_img mobile_img : String) : String :=
  let has_desktop := desktop_img != ""
  let has_mobile := mobile_img != ""
  if has_desktop || has_mobile then
    "<div class=\"screenshot-tabs\">"
    ++ String.join (screenshot_tab_buttons page_id has_desktop has_mobile)
    ++ "</div>"
    ++ String.join (screenshot_panels page_id page_type desktop_img mobile_img has_desktop has_mobile)
  else ""

/-- One finding card of a page section (`findings_cards` loop body). -/
def render_finding_item (f : Finding) : String :=
  let fs := f.score.getD 0
  let fpc := priority_color (f.priority.getD "P2")
  let bar := svg_score_bar fs 60
  let li := lens_icon (f.lens.getD "")
  "<div class=\"finding-item\" style=\"border-left-color:" ++ fpc
  ++ ";\"><div class=\"finding-item-header\"><div class=\"finding-score-wrap\">" ++ bar
  ++ "<span class=\"finding-score-num\" style=\"color:" ++ score_color fs ++ ";\">" ++ ratRepr fs
  ++ "</span></div><span class=\"finding-criterion\">" ++ f.criterion_id.getD ""
  ++ " &mdash; " ++ f.criterion_name.getD ""
  ++ "</span><span class=\"finding-lens\">" ++ li
  ++ "</span><span class=\"priority-badge\" style=\"background:" ++ fpc ++ ";margin-left:auto;\">"
  ++ f.priority.getD "P2"
  ++ "</span></div><div class=\"finding-issue\">" ++ f.issue.getD ""
  ++ "</div><div class=\"finding-rec\"><strong>Recommendation:</strong> "
  ++ f.recommendation.getD "" ++ "</div></div>"

/-- The accumulated finding cards of one page. -/
def findings_cards (l : List Finding) : String :=
  String.join (l.map render_finding_item)

/-- One page section (`pages_html` loop body). -/
def render_page_section (env : Env) (i : ℕ) (page : Page) : String :=
  let page_type := default_page_type i page
  let page_id := page_id_of page_type
  let page_score := page.page_score.getD 0
  let page_gauge := svg_score_gauge page_score 70 true
  let desktop_img := encode_image env.fs (page.desktop_screenshot_path.getD "")
  let mobile_img := encode_image env.fs (page.mobile_screenshot_path.getD "")
  let cards := findings_cards (page.findings.getD [])
  "<section id=\"" ++ page_id ++ "\" class=\"page-section animate-in\"><div class=\"page-header\"><h2>"
  ++ page_type ++ "</h2>" ++ page_gauge
  ++ "</div><p class=\"page-url\"><a href=\"" ++ page.url.getD "" ++ "\" target=\"_blank\">"
  ++ page.url.getD "" ++ "</a></p>"
  ++ screenshot_html page_id page_type desktop_img mobile_img
  ++ "<div class=\"section-title\" style=\"margin-top:1.5rem;\">Findings</div><div class=\"findings-list\">"
  ++ (if cards = "" then "<p style=\"color:#6b7280;\">No findings for this page.</p>" else cards)
  ++ "</div></section>"

/-- The page sections, one per page, in page order. -/
def page_sections (env : Env) (pages : List Page) : List String :=
  pages.enum.map fun ip => render_page_section env ip.1 ip.2

/-- The accumulated `pages_html` string. -/
def pages_html (env : Env) (pages : List Page) : String :=
  String.join (page_sections env pages)

/-- One cross-cutting issue card. -/
def render_cross_issue (issue : CrossIssue) : String :=
  let pc := priority_color (issue.priority.getD "P2")
  let affected := String.intercalate ", " (issue.affected_pages.getD [])
  "<div class=\"finding-card\" style=\"border-left-color:" ++ pc
  ++ ";\"><div class=\"finding-header\"><span class=\"priority-badge\" style=\"background:" ++ pc ++ ";\">"
  ++ issue.priority.getD "P2" ++ "</span><strong>" ++ issue.title.getD ""
  ++ "</strong><span class=\"affected-pages\">Affects: " ++ affected
  ++ "</span></div><p style=\"color:#475569;font-size:0.9rem;\">"
  ++ issue.description.getD "" ++ "</p></div>"

/-- The cross-cutting issues block, omitted for an empty (falsy) list. -/
def cross_html (cross : List CrossIssue) : String :=
  if cross.isEmpty then ""
  else
    "<div class=\"section-card animate-in\"><div class=\"section-title\">Cross-Cutting Issues</div>"
    ++ String.join (cross.map render_cross_issue) ++ "</div>"

/-- The nested helper `impact_tag`. -/
def impact_tag (val : String) : String :=
  let v := val.toLower
  let cls := if v = "high" then "tag-high" else if v = "medium" then "tag-medium" else "tag-low"
  "<span class=\"action-tag " ++ cls ++ "\">Impact: " ++ val ++ "</span>"

/-- The nested helper `effort_tag`. -/
def effort_tag (val : String) : String :=
  let v := val.toLower
  let cls := if v = "low" then "tag-low" else if v = "medium" then "tag-medium" else "tag-high"
  "<span class=\"action-tag " ++ cls ++ "\">Effort: " ++ val ++ "</span>"

/-- One action item card (`action_cards` loop body). -/
def render_action_item (border_color : String) (item : ActionItem) : String :=
  "<div class=\"action-item\" style=\"border-left-color:" ++ border_color
  ++ ";\"><div class=\"action-text\">" ++ item.action.getD ""
  ++ "</div><span class=\"action-page\">" ++ item.page.getD "" ++ "</span>"
  ++ impact_tag (item.impact.getD "") ++ effort_tag (item.effort.getD "") ++ "</div>"

/-- The nested helper `action_cards`: a list for nonempty input, a
placeholder paragraph otherwise. -/
def action_cards (items : List ActionItem) (border_color : String) : String :=
  if items.isEmpty then "<p style=\"color:#6b7280;font-size:0.9rem;\">None identified.</p>"
  else
    "<div class=\"action-list\">"
    ++ String.join (items.map (render_action_item border_color)) ++ "</div>"

/-- The action plan block with its three labeled sub-lists. -/
def action_html (qw mt st : List ActionItem) : String :=
  "<div class=\"section-card animate-in\"><div class=\"section-title\">Prioritized Action Plan</div><div class=\"action-section-title\">&#9889; Quick Wins <span style=\"font-size:0.8rem;font-weight:400;color:#6b7280;\">&mdash; High Impact, Low Effort</span></div>"
  ++ action_cards qw "#22c55e"
  ++ "<div class=\"action-section-title\" style=\"margin-top:1.5rem;\">&#128736; Medium-Term Improvements</div>"
  ++ action_cards mt "#3b82f6"
  ++ "<div class=\"action-section-title\" style=\"margin-top:1.5rem;\">&#127919; Strategic Initiatives <span style=\"font-size:0.8rem;font-weight:400;color:#6b7280;\">&mdash; High Impact, High Effort</span></div>"
  ++ action_cards st "#8b5cf6"
  ++ "</div>"

/-- The constant footer. -/
def footer_html : String :=
  "<footer><p>Generated by <strong>Clips OS</strong> CRO Audit &bull; LIFT Model + Baymard Heuristics &bull; 1-5 Scoring</p><p>Scores reflect UX/CRO analysis at time of audit. Results may vary with traffic source, user segment, and device.</p></footer>"

/-- The constant stylesheet (`CSS_STYLES` in the source); its literal text is
input-independent and abbreviated here, which no claim observes. -/
def CSS_STYLES : String := "[stylesheet constant of generate_report.py]"

/-- The script block: static scaffolding (abbreviated, input-independent)
plus the eight chart data constants interpolated from the input. -/
def js_block (page_labels_json page_scores_json page_colors_json
    lens_labels_json lens_values_json score_dist_labels_json
    score_dist_values_json score_dist_colors_json : String) : String :=
  "<script>[static scaffolding of generate_report.py] const pageLabels = "
  ++ page_labels_json
  ++ "; const pageScores = " ++ page_scores_json
  ++ "; const pageColors = " ++ page_colors_json
  ++ "; const lensLabels = " ++ lens_labels_json
  ++ "; const lensValues = " ++ lens_values_json
  ++ "; const scoreBins = " ++ score_dist_labels_json
  ++ "; const scoreCounts = " ++ score_dist_values_json
  ++ "; const scoreBarColors = " ++ score_dist_colors_json
  ++ ";</script>"

/-- `generate_html`: the whole document as one string. -/
def generate_html (env : Env) (data : AuditData) : String :=
  let site_name := data.site_name.getD (data.site_url.getD "Unknown")
  let site_url := data.site_url.getD ""
  let platform := data.platform.getD "Unknown"
  let audit_date := data.audit_date.getD env.now
  let overall_score := data.overall_score.getD 0
  let executive_summary := data.executive_summary.getD ""
  let top_findings := data.top_findings.getD []
  let pages := data.pages.getD []
  let cross_cutting := data.cross_cutting_issues.getD []
  let action_plan := data.action_plan.getD {}
  let total_findings := (pages.map fun p => (p.findings.getD []).length).sum
  let total_pages := pages.length
  let lens_avgs := compute_lens_averages pages
  let score_dist := compute_score_distribution pages
  let priority_dist := compute_priority_distribution pages
  let gauge_html := svg_score_gauge overall_score 130
  let hdr := header_html gauge_html site_name site_url platform audit_date
    total_pages total_findings (critical_high_count pages)
  let page_labels_json := json_list (pages.enum.map fun ip => json_str (default_page_type ip.1 ip.2))
  let page_scores_json := json_list (pages.map fun p => ratRepr (p.page_score.getD 0))
  let page_colors_json := json_list (pages.map fun p => json_str (score_color (p.page_score.getD 0)))
  let lens_labels_json := json_list
    ((["Clarity", "Relevance", "Friction", "Anxiety", "Urgency", "Technical"]).map json_str)
  let lens_values_json := json_list (lens_keys.map fun k => ratRepr ((lens_avgs.lookup k).getD 0))
  let score_dist_labels_json := json_list
    ((["1 - Critical", "2 - Needs Work", "3 - Acceptable", "4 - Good", "5 - Excellent"]).map json_str)
  let score_dist_values_json := json_list (([1, 2, 3, 4, 5] : List ℤ).map fun i => natStr (score_dist i))
  let score_dist_colors_json := json_list (([1, 2, 3, 4, 5] : List ℚ).map fun i => json_str (score_color i))
  let donut_html := svg_priority_donut priority_dist 120
  "<!DOCTYPE html><html lang=\"en\"><head><meta charset=\"UTF-8\"><meta name=\"viewport\" content=\"width=device-width, initial-scale=1.0\"><title>Clips OS &mdash; CRO Audit &mdash; "
  ++ site_name
  ++ "</title><script src=\"https://cdn.jsdelivr.net/npm/chart.js@4\"></script><style>"
  ++ CSS_STYLES
  ++ "</style></head><body><div class=\"container\">"
  ++ hdr
  ++ exec_html executive_summary
  ++ analytics_html donut_html
  ++ top_section top_findings
  ++ page_nav_html pages
  ++ pages_html env pages
  ++ cross_html cross_cutting
  ++ action_html (action_plan.quick_wins.getD []) (action_plan.medium_term.getD [])
    (action_plan.strategic.getD [])
  ++ footer_html
  ++ "</div>"
  ++ js_block page_labels_json page_scores_json page_colors_json lens_labels_json
    lens_values_json score_dist_labels_json score_dist_values_json score_dist_colors_json
  ++ "</body></html>"

/-! ## String infrastructure -/

theorem str_mk_append (a b : List Char) :
    (String.mk a ++ String.mk b) = String.mk (a ++ b) := rfl

theorem str_append_assoc (a b c : String) : (a ++ b) ++ c = a ++ (b ++ c) := by
  cases a with
  | mk da =>
    cases b with
    | mk db =>
      cases c with
      | mk dc =>
        rw [str_mk_append, str_mk_append, str_mk_append, str_mk_append, List.append_assoc]

theorem str_empty_append (s : String) : "" ++ s = s := by
  cases s with
  | mk d => rw [show ("" : String) = String.mk [] from rfl, str_mk_append, List.nil_append]

theorem str_append_empty (s : String) : s ++ "" = s := by
  cases s with
  | mk d =>
    rw [show ("" : String) = String.mk [] from rfl, str_mk_append, List.append_nil]

theorem str_append_cancel_left {a b c : String} (h : a ++ b = a ++ c) : b = c := by
  cases a with
  | mk da =>
    cases b with
    | mk db =>
      cases c with
      | mk dc =>
        rw [str_mk_append, str_mk_append] at h
        have h2 : da ++ db = da ++ dc := congrArg String.data h
        exact congrArg String.mk (List.append_cancel_left h2)

theorem str_append_cancel_right {a b c : String} (h : a ++ c = b ++ c) : a = b := by
  cases a with
  | mk da =>
    cases b with
    | mk db =>
      cases c with
      | mk dc =>
        rw [str_mk_append, str_mk_append] at h
        have h2 : da ++ dc = db ++ dc := congrArg String.data h
        exact congrArg String.mk (List.append_cancel_right h2)

/-- `pat` occurs as a contiguous substring of `s`. -/
def ContainsSub (s pat : String) : Prop := ∃ a b, s = a ++ (pat ++ b)

theorem containsSub_refl (s : String) : ContainsSub s s :=
  ⟨"", "", by rw [str_append_empty, str_empty_append]⟩

theorem containsSub_appendR (t : String) {s pat : String} (h : ContainsSub s pat) :
    ContainsSub (s ++ t) pat := by
  obtain ⟨a, b, rfl⟩ := h
  exact ⟨a, b ++ t, by rw [str_append_assoc, str_append_assoc]⟩

theorem containsSub_appendL (t : String) {s pat : String} (h : ContainsSub s pat) :
    ContainsSub (t ++ s) pat := by
  obtain ⟨a, b, rfl⟩ := h
  exact ⟨t ++ a, b, by rw [str_append_assoc]⟩

/-! ## Facts about `bround` and `round2` -/

theorem bround_cases (q : ℚ) : bround q = ⌊q⌋ ∨ bround q = ⌊q⌋ + 1 := by
  simp only [bround]
  split_ifs <;> simp

theorem bround_intCast (n : ℤ) : bround (n : ℚ) = n := by
  simp only [bround, Int.floor_intCast, sub_self]
  norm_num

theorem bround_nonneg {q : ℚ} (h : 0 ≤ q) : 0 ≤ bround q := by
  rcases bround_cases q with hc | hc <;> rw [hc] <;>
    have := Int.floor_nonneg.mpr h <;> omega

theorem bround_le_of_le {q : ℚ} {N : ℤ} (h : q ≤ N) : bround q ≤ N := by
  have hfl : ⌊q⌋ ≤ N := by
    calc ⌊q⌋ ≤ ⌊(N : ℚ)⌋ := Int.floor_le_floor h
    _ = N := Int.floor_intCast N
  simp only [bround]
  split_ifs with h1 h2 h3
  · exact hfl
  · -- fractional part exceeds one half, so the floor is strictly below N
    have hq : (⌊q⌋ : ℚ) + 1/2 < q := by
      have := h2
      linarith
    have : (⌊q⌋ : ℚ) < (N : ℚ) := by linarith
    have : ⌊q⌋ < N := by exact_mod_cast this
    omega
  · exact hfl
  · have hq : (⌊q⌋ : ℚ) + 1/2 ≤ q := by
      have h2' : ¬ (q - ⌊q⌋ > 1/2) := h2
      have h1' : ¬ (q - ⌊q⌋ < 1/2) := h1
      linarith
    have : (⌊q⌋ : ℚ) < (N : ℚ) := by linarith
    have : ⌊q⌋ < N := by exact_mod_cast this
    omega

theorem round2_nonneg {q : ℚ} (h : 0 ≤ q) : 0 ≤ round2 q := by
  simp only [round2]
  have h0 : (0 : ℤ) ≤ bround (q * 100) := bround_nonneg (by linarith)
  positivity

theorem round2_le_five {q : ℚ} (h : q ≤ 5) : round2 q ≤ 5 := by
  simp only [round2]
  have : bround (q * 100) ≤ (500 : ℤ) := by
    apply bround_le_of_le
    push_cast
    linarith
  have hc : ((bround (q * 100) : ℚ)) ≤ 500 := by exact_mod_cast this
  linarith

/-! ## Characterizations of the aggregator folds -/

theorem allFindings_cons (p : Page) (ps : List Page) :
    allFindings (p :: ps) = p.findings.getD [] ++ allFindings ps := by
  simp [allFindings]

/-- The nested page/finding loops are one fold over all findings. -/
theorem foldl_findings_flat {α : Type} (step : α → Finding → α)
    (pages : List Page) (init : α) :
    pages.foldl (fun acc p => (p.findings.getD []).foldl step acc) init
      = (allFindings pages).foldl step init := by
  induction pages generalizing init with
  | nil => simp [allFindings]
  | cons p ps ih =>
    rw [List.foldl_cons, allFindings_cons, List.foldl_append, ih]

theorem foldl_score_dist (l : List Finding) (d : ℤ → ℕ) (k : ℤ) :
    (l.foldl score_dist_step d) k = d k + l.countP (fun f => scoreKey f == k) := by
  induction l generalizing d with
  | nil => simp
  | cons f rest ih =>
    rw [List.foldl_cons, ih, List.countP_cons]
    have hstep : (score_dist_step d f) k = if k = scoreKey f then d k + 1 else d k := rfl
    rw [hstep]
    by_cases h : k = scoreKey f
    · have hbe : (scoreKey f == k) = true := beq_iff_eq.mpr h.symm
      rw [if_pos h]
      simp only [hbe, if_true]
      omega
    · have hbe : (scoreKey f == k) = false :=
        beq_eq_false_iff_ne.mpr (fun hEq => h hEq.symm)
      rw [if_neg h]
      simp only [hbe, Bool.false_eq_true, if_false]
      omega

theorem compute_score_distribution_eq (pages : List Page) (k : ℤ) :
    compute_score_distribution pages k
      = (allFindings pages).countP (fun f => scoreKey f == k) := by
  rw [compute_score_distribution, foldl_findings_flat, foldl_score_dist]
  exact Nat.zero_add _

theorem foldl_priority_dist (l : List Finding) (d : String → ℕ) (t : String)
    (ht : t ∈ priority_keys) :
    (l.foldl priority_dist_step d) t
      = d t + l.countP (fun f => f.priority.getD "P2" == t) := by
  induction l generalizing d with
  | nil => simp
  | cons f rest ih =>
    rw [List.foldl_cons, ih, List.countP_cons]
    by_cases hmem : f.priority.getD "P2" ∈ priority_keys
    · have hstep : (priority_dist_step d f) t
          = if t = f.priority.getD "P2" then d t + 1 else d t := by
        simp only [priority_dist_step]
        rw [if_pos hmem]
      rw [hstep]
      by_cases h : t = f.priority.getD "P2"
      · have hbe : (f.priority.getD "P2" == t) = true := beq_iff_eq.mpr h.symm
        rw [if_pos h]
        simp only [hbe, if_true]
        omega
      · have hbe : (f.priority.getD "P2" == t) = false :=
          beq_eq_false_iff_ne.mpr (fun hEq => h hEq.symm)
        rw [if_neg h]
        simp only [hbe, Bool.false_eq_true, if_false]
        omega
    · have hstep : (priority_dist_step d f) t = d t := by
        simp only [priority_dist_step]
        rw [if_neg hmem]
      rw [hstep]
      have hbe : (f.priority.getD "P2" == t) = false :=
        beq_eq_false_iff_ne.mpr (fun hEq => hmem (hEq ▸ ht))
      simp only [hbe, Bool.false_eq_true, if_false]
      omega

theorem foldl_priority_dist_off (l : List Finding) (d : String → ℕ) (t : String)
    (ht : t ∉ priority_keys) :
    (l.foldl priority_dist_step d) t = d t := by
  induction l generalizing d with
  | nil => simp
  | cons f rest ih =>
    rw [List.foldl_cons, ih]
    by_cases hmem : f.priority.getD "P2" ∈ priority_keys
    · have hne : t ≠ f.priority.getD "P2" := by
        intro hEq
        exact ht (hEq ▸ hmem)
      show (priority_dist_step d f) t = d t
      simp only [priority_dist_step]
      rw [if_pos hmem]
      exact if_neg hne
    · show (priority_dist_step d f) t = d t
      simp only [priority_dist_step]
      rw [if_neg hmem]

theorem compute_priority_distribution_eq (pages : List Page) (t : String)
    (ht : t ∈ priority_keys) :
    compute_priority_distribution pages t
      = (allFindings pages).countP (fun f => f.priority.getD "P2" == t) := by
  rw [compute_priority_distribution, foldl_findings_flat, foldl_priority_dist _ _ _ ht]
  exact Nat.zero_add _

theorem compute_priority_distribution_off (pages : List Page) (t : String)
    (ht : t ∉ priority_keys) :
    compute_priority_distribution pages t = 0 := by
  rw [compute_priority_distribution, foldl_findings_flat, foldl_priority_dist_off _ _ _ ht]

/-- The findings of all pages tagged with lens `k`. -/
def lensFindings (pages : List Page) (k : String) : List Finding :=
  (allFindings pages).filter (fun f => f.lens.getD "" == k)

theorem foldl_lens_totals (l : List Finding) (tc : (String → ℚ) × (String → ℕ))
    (k : String) (hk : k ≠ "") :
    (l.foldl lens_step tc).1 k
      = tc.1 k + ((l.filter (fun f => f.lens.getD "" == k)).map
          (fun f => f.score.getD 0)).sum := by
  induction l generalizing tc with
  | nil => simp
  | cons f rest ih =>
    rw [List.foldl_cons, ih, List.filter_cons]
    by_cases hl : f.lens.getD "" = ""
    · have hbe : (f.lens.getD "" == k) = false := by
        rw [hl]
        exact beq_eq_false_iff_ne.mpr (fun hEq => hk hEq.symm)
      have hstep : lens_step tc f = tc := by
        simp only [lens_step]
        rw [if_pos hl]
      rw [hstep]
      simp only [hbe, Bool.false_eq_true, if_false]
    · by_cases hkl : f.lens.getD "" = k
      · have hbe : (f.lens.getD "" == k) = true := beq_iff_eq.mpr hkl
        have hstep : (lens_step tc f).1 k = tc.1 k + f.score.getD 0 := by
          simp only [lens_step]
          rw [if_neg hl]
          exact if_pos hkl.symm
        rw [hstep]
        simp only [hbe, if_true, List.map_cons, List.sum_cons]
        ring
      · have hbe : (f.lens.getD "" == k) = false := beq_eq_false_iff_ne.mpr hkl
        have hstep : (lens_step tc f).1 k = tc.1 k := by
          simp only [lens_step]
          rw [if_neg hl]
          exact if_neg (fun hEq => hkl hEq.symm)
        rw [hstep]
        simp only [hbe, Bool.false_eq_true, if_false]

theorem foldl_lens_counts (l : List Finding) (tc : (String → ℚ) × (String → ℕ))
    (k : String) (hk : k ≠ "") :
    (l.foldl lens_step tc).2 k
      = tc.2 k + (l.filter (fun f => f.lens.getD "" == k)).length := by
  induction l generalizing tc with
  | nil => simp
  | cons f rest ih =>
    rw [List.foldl_cons, ih, List.filter_cons]
    by_cases hl : f.lens.getD "" = ""
    · have hbe : (f.lens.getD "" == k) = false := by
        rw [hl]
        exact beq_eq_false_iff_ne.mpr (fun hEq => hk hEq.symm)
      have hstep : lens_step tc f = tc := by
        simp only [lens_step]
        rw [if_pos hl]
      rw [hstep]
      simp only [hbe, Bool.false_eq_true, if_false]
    · by_cases hkl : f.lens.getD "" = k
      · have hbe : (f.lens.getD "" == k) = true := beq_iff_eq.mpr hkl
        have hstep : (lens_step tc f).2 k = tc.2 k + 1 := by
          simp only [lens_step]
          rw [if_neg hl]
          exact if_pos hkl.symm
        rw [hstep]
        simp only [hbe, if_true, List.length_cons]
        omega
      · have hbe : (f.lens.getD "" == k) = false := beq_eq_false_iff_ne.mpr hkl
        have hstep : (lens_step tc f).2 k = tc.2 k := by
          simp only [lens_step]
          rw [if_neg hl]
          exact if_neg (fun hEq => hkl hEq.symm)
        rw [hstep]
        simp only [hbe, Bool.false_eq_true, if_false]

/-- The value of one entry of `compute_lens_averages`, written over the
filtered findings list: rounded average when the lens has findings, else 0. -/
def lensAvgValue (pages : List Page) (k : String) : ℚ :=
  if (lensFindings pages k).length ≠ 0 then
    round2 (((lensFindings pages k).map (fun f => f.score.getD 0)).sum
      / ((lensFindings pages k).length : ℚ))
  else 0

theorem compute_lens_averages_eq (pages : List Page) :
    compute_lens_averages pages = lens_keys.map (fun k => (k, lensAvgValue pages k)) := by
  rw [compute_lens_averages]
  apply List.map_congr_left
  intro k hkmem
  have hk : k ≠ "" := by
    revert hkmem
    rw [lens_keys]
    intro hkmem
    fin_cases hkmem <;> decide
  rw [foldl_findings_flat, foldl_lens_totals _ _ _ hk, foldl_lens_counts _ _ _ hk]
  simp only [lensAvgValue, lensFindings]
  norm_num

/-! ## Small evaluation helpers -/

theorem bround_zero : bround (0 : ℚ) = 0 := by
  have h := bround_intCast 0
  push_cast at h
  exact h

theorem bround_three : bround (3 : ℚ) = 3 := by
  have h := bround_intCast 3
  push_cast at h
  exact h

theorem list_sum_bounds (xs : List ℚ) (h : ∀ x ∈ xs, 0 ≤ x ∧ x ≤ 5) :
    0 ≤ xs.sum ∧ xs.sum ≤ 5 * xs.length := by
  induction xs with
  | nil => simp
  | cons x rest ih =>
    have hx := h x (List.mem_cons_self x rest)
    have hr := ih (fun y hy => h y (List.mem_cons_of_mem x hy))
    simp only [List.sum_cons, List.length_cons]
    push_cast
    constructor
    · linarith [hx.1, hr.1]
    · linarith [hx.2, hr.2]

theorem scoreKey_ge_one (f : Finding) : 1 ≤ scoreKey f := le_max_left _ _

theorem scoreKey_le_five (f : Finding) : scoreKey f ≤ 5 := by
  rw [scoreKey]
  exact max_le (by norm_num) (min_le_left _ _)

/-! ## Claim theorems -/

/-- C1 (amended): `compute_priority_distribution` counts, for each of the four
known tiers, the findings whose priority (defaulting a missing priority to
"P2") equals that tier; a finding whose priority is present but not one of
P0..P3 is counted under no tier, and off-key queries are zero. -/
theorem C1_priority_distribution (pages : List Page) (t : String) :
    compute_priority_distribution pages t
      = if t ∈ priority_keys
        then (allFindings pages).countP (fun f => f.priority.getD "P2" == t)
        else 0 := by
  by_cases ht : t ∈ priority_keys
  · rw [if_pos ht]
    exact compute_priority_distribution_eq pages t ht
  · rw [if_neg ht]
    exact compute_priority_distribution_off pages t ht

/-- A page list whose single finding carries the unknown tier "P9". -/
def unknownTierPages : List Page :=
  [{ findings := some [{ priority := some "P9" }] }]

/-- C1 counterexample: the claim says an unknown tier is counted under P2,
but the code drops the finding: all four counters stay zero although the
input has one finding (with priority "P9"). -/
theorem C1_counterexample :
    compute_priority_distribution unknownTierPages "P0" = 0 ∧
    compute_priority_distribution unknownTierPages "P1" = 0 ∧
    compute_priority_distribution unknownTierPages "P2" = 0 ∧
    compute_priority_distribution unknownTierPages "P3" = 0 ∧
    (allFindings unknownTierPages).length = 1 := by
  refine ⟨?_, ?_, ?_, ?_, ?_⟩ <;> decide

/-- C6: `compute_score_distribution` counts, for every integer key, the
findings whose rounded clamped score equals that key, and the five bucket
counts sum to the total number of findings across all pages. -/
theorem C6_score_distribution (pages : List Page) :
    (∀ k : ℤ, compute_score_distribution pages k
        = (allFindings pages).countP (fun f => scoreKey f == k)) ∧
    compute_score_distribution pages 1 + compute_score_distribution pages 2
      + compute_score_distribution pages 3 + compute_score_distribution pages 4
      + compute_score_distribution pages 5 = (allFindings pages).length := by
  constructor
  · exact compute_score_distribution_eq pages
  · simp only [compute_score_distribution_eq]
    induction allFindings pages with
    | nil => simp
    | cons f rest ih =>
      simp only [List.countP_cons, List.length_cons]
      have h1 := scoreKey_ge_one f
      have h5 := scoreKey_le_five f
      have hd : scoreKey f = 1 ∨ scoreKey f = 2 ∨ scoreKey f = 3 ∨
          scoreKey f = 4 ∨ scoreKey f = 5 := by omega
      rcases hd with h | h | h | h | h <;> simp [h] <;> omega

/-- C10: the Critical/High count of the report header equals the sum of the
P0 and P1 entries of `compute_priority_distribution` on the same pages. -/
theorem C10_critical_high (pages : List Page) :
    critical_high_count pages
      = compute_priority_distribution pages "P0"
        + compute_priority_distribution pages "P1" := by
  rw [compute_priority_distribution_eq pages "P0" (by decide),
    compute_priority_distribution_eq pages "P1" (by decide), critical_high_count]
  have hflat : (pages.map fun p => (p.findings.getD []).countP
      (fun f => f.priority == some "P0" || f.priority == some "P1")).sum
      = (allFindings pages).countP
          (fun f => f.priority == some "P0" || f.priority == some "P1") := by
    induction pages with
    | nil => simp [allFindings]
    | cons p ps ih =>
      rw [List.map_cons, List.sum_cons, allFindings_cons, List.countP_append, ih]
  rw [hflat]
  induction allFindings pages with
  | nil => simp
  | cons f rest ih =>
    simp only [List.countP_cons]
    cases hp : f.priority with
    | none => simp [ih]
    | some p =>
      by_cases h0 : p = "P0"
      · simp [h0, ih]
        omega
      · by_cases h1 : p = "P1"
        · simp [h1, ih]
          omega
        · have hb0 : (p == "P0") = false := beq_eq_false_iff_ne.mpr h0
          have hb1 : (p == "P1") = false := beq_eq_false_iff_ne.mpr h1
          simp [hb0, hb1, ih]

/-- C5 (amended): `compute_lens_averages` is keyed by exactly the six lens
names in canonical order, and each entry carries the average of the scores
of the findings tagged with that lens, rounded to two decimals (half to
even); a lens with zero tagged findings maps to exactly 0. -/
theorem C5_lens_averages (pages : List Page) :
    (compute_lens_averages pages).map Prod.fst = lens_keys ∧
    ∀ kv ∈ compute_lens_averages pages, kv.2 = lensAvgValue pages kv.1 := by
  rw [compute_lens_averages_eq]
  constructor
  · rw [List.map_map]
    rfl
  · intro kv hkv
    obtain ⟨k, hk, rfl⟩ := List.mem_map.mp hkv
    rfl

theorem bround_four_thirds_hundred : bround ((4 : ℚ)/3 * 100) = 133 := by
  have h1 : ((4 : ℚ)/3 * 100) = 400/3 := by norm_num
  rw [h1]
  simp only [bround]
  have hf : ⌊(400 : ℚ)/3⌋ = 133 := by norm_num
  rw [hf]
  rw [if_pos]
  push_cast
  norm_num

/-- One page with three clarity findings scoring 1, 1 and 2: the exact
average is 4/3, which is not representable after rounding to two decimals. -/
def lensCexPages : List Page :=
  [{ findings := some
      [{ score := some 1, lens := some "clarity" },
       { score := some 1, lens := some "clarity" },
       { score := some 2, lens := some "clarity" }] }]

/-- C5 counterexample: the clarity entry is 1.33 = 133/100, the rounded
value, while the exact average of the tagged findings is 4/3; the two
differ, so the entry is not "the average score" as the claim states. -/
theorem C5_counterexample :
    (compute_lens_averages lensCexPages).lookup "clarity" = some (133/100) ∧
    ((lensFindings lensCexPages "clarity").map (fun f => f.score.getD 0)).sum
        / ((lensFindings lensCexPages "clarity").length : ℚ) = 4/3 ∧
    (133/100 : ℚ) ≠ 4/3 := by
  have hfl : lensFindings lensCexPages "clarity"
      = [{ score := some 1, lens := some "clarity" },
         { score := some 1, lens := some "clarity" },
         { score := some 2, lens := some "clarity" }] := by
    simp [lensFindings, allFindings, lensCexPages]
  have hsum : (((lensFindings lensCexPages "clarity").map
      (fun f => f.score.getD 0)).sum
        / ((lensFindings lensCexPages "clarity").length : ℚ)) = 4/3 := by
    rw [hfl]
    norm_num
  have hval : lensAvgValue lensCexPages "clarity" = 133/100 := by
    rw [lensAvgValue, hfl]
    rw [if_pos (by norm_num)]
    have harg : ((([{ score := some 1, lens := some "clarity" },
        { score := some 1, lens := some "clarity" },
        { score := some 2, lens := some "clarity" }] : List Finding).map
          (fun f => f.score.getD 0)).sum
        / (([{ score := some 1, lens := some "clarity" },
        { score := some 1, lens := some "clarity" },
        { score := some 2, lens := some "clarity" }] : List Finding).length : ℚ))
        = (4 : ℚ)/3 := by norm_num
    rw [harg, round2, bround_four_thirds_hundred]
    norm_num
  refine ⟨?_, hsum, by norm_num⟩
  rw [compute_lens_averages_eq]
  simp [lens_keys, List.lookup, hval]

/-- C2 (amended): `compute_score_distribution` does round and clamp every
score into [1,5] — its support lies in [1,5] for every input, with no
hypothesis; and whenever every finding score — defaulted to 0 when missing —
lies in [0,5] (which the documented invariant score ∈ [1,5] implies), every
entry of `compute_lens_averages` lies in [0,5].  `compute_lens_averages`
itself does not clamp, so that hypothesis is needed (see the
counterexample). -/
theorem C2_aggregation_bounds (pages : List Page) :
    (∀ k : ℤ, compute_score_distribution pages k ≠ 0 → 1 ≤ k ∧ k ≤ 5) ∧
    ((∀ f ∈ allFindings pages, 0 ≤ f.score.getD 0 ∧ f.score.getD 0 ≤ 5) →
      ∀ kv ∈ compute_lens_averages pages, 0 ≤ kv.2 ∧ kv.2 ≤ 5) := by
  constructor
  · intro k hk
    rw [compute_score_distribution_eq] at hk
    have hex : ∃ f ∈ allFindings pages, (scoreKey f == k) = true := by
      by_contra hall
      push_neg at hall
      exact hk (List.countP_eq_zero.mpr hall)
    obtain ⟨f, hf, hfk⟩ := hex
    have hk2 := beq_iff_eq.mp hfk
    have h1 := scoreKey_ge_one f
    have h5 := scoreKey_le_five f
    omega
  · intro h kv hkv
    rw [compute_lens_averages_eq] at hkv
    obtain ⟨k, hkmem, rfl⟩ := List.mem_map.mp hkv
    simp only [lensAvgValue]
    split_ifs with hn
    · have hb := list_sum_bounds ((lensFindings pages k).map (fun f => f.score.getD 0))
        (fun x hx => by
          obtain ⟨f, hf, rfl⟩ := List.mem_map.mp hx
          exact h f (List.mem_of_mem_filter hf))
      rw [List.length_map] at hb
      have hpos : 0 < (lensFindings pages k).length := Nat.pos_of_ne_zero hn
      have hlen : 0 < ((lensFindings pages k).length : ℚ) := by exact_mod_cast hpos
      constructor
      · exact round2_nonneg (div_nonneg hb.1 hlen.le)
      · apply round2_le_five
        rw [div_le_iff₀ hlen]
        linarith [hb.2]
    · exact ⟨le_refl 0, by norm_num⟩

theorem bround_four : bround (4 : ℚ) = 4 := by
  have h := bround_intCast 4
  push_cast at h
  exact h

/-- A page list satisfying the documented score invariant. -/
def c2wPages : List Page :=
  [{ findings := some [{ score := some 4, lens := some "clarity" }] }]

/-- Witness for C2 at a concrete input: bucket 4 is inhabited (discharging
the nonzero hypothesis of the support conjunct) and the input satisfies the
score invariant (discharging the hypothesis of the lens conjunct). -/
theorem C2_witness :
    (∀ f ∈ allFindings c2wPages, 0 ≤ f.score.getD 0 ∧ f.score.getD 0 ≤ 5) ∧
    compute_score_distribution c2wPages 4 ≠ 0 ∧
    (1 ≤ (4 : ℤ) ∧ (4 : ℤ) ≤ 5) ∧
    ∀ kv ∈ compute_lens_averages c2wPages, 0 ≤ kv.2 ∧ kv.2 ≤ 5 := by
  have hw : ∀ f ∈ allFindings c2wPages, 0 ≤ f.score.getD 0 ∧ f.score.getD 0 ≤ 5 := by
    intro f hf
    simp only [allFindings, c2wPages] at hf
    simp at hf
    rw [hf]
    norm_num
  have hsk : scoreKey ({ score := some 4, lens := some "clarity" } : Finding) = 4 := by
    rw [scoreKey]
    simp only [Option.getD_some]
    rw [bround_four]
    decide
  have hnz : compute_score_distribution c2wPages 4 ≠ 0 := by
    rw [compute_score_distribution_eq]
    simp [allFindings, c2wPages, hsk]
  exact ⟨hw, hnz, (C2_aggregation_bounds c2wPages).1 4 hnz,
    (C2_aggregation_bounds c2wPages).2 hw⟩

theorem bround_ten_thousand : bround ((100 : ℚ) * 100) = 10000 := by
  have h1 : ((100 : ℚ) * 100) = ((10000 : ℤ) : ℚ) := by push_cast; norm_num
  rw [h1, bround_intCast]

/-- One page with a single clarity finding scoring 100 (violating the
documented invariant); the lens average is 100. -/
def c2CexPages : List Page :=
  [{ findings := some [{ score := some 100, lens := some "clarity" }] }]

/-- C2 counterexample: `compute_lens_averages` does not clamp: with an
input score of 100 the clarity entry is 100, far outside [0,5], so the
claim "the value lies in [0,5] for every input page list" is false. -/
theorem C2_counterexample :
    (compute_lens_averages c2CexPages).lookup "clarity" = some 100 ∧
    ¬ ((100 : ℚ) ≤ 5) := by
  have hfl : lensFindings c2CexPages "clarity"
      = [{ score := some 100, lens := some "clarity" }] := by
    simp [lensFindings, allFindings, c2CexPages]
  have hval : lensAvgValue c2CexPages "clarity" = 100 := by
    rw [lensAvgValue, hfl]
    rw [if_pos (by norm_num)]
    have harg : ((([{ score := some 100, lens := some "clarity" }] : List Finding).map
        (fun f => f.score.getD 0)).sum
        / (([{ score := some 100, lens := some "clarity" }] : List Finding).length : ℚ))
        = (100 : ℚ) := by norm_num
    rw [harg, round2, bround_ten_thousand]
    norm_num
  refine ⟨?_, by norm_num⟩
  rw [compute_lens_averages_eq]
  simp [lens_keys, List.lookup, hval]

/-- C3 (amended): a missing optional field is substituted by a safe default
and never raises: missing text fields render as the empty string, a missing
priority is treated as "P2" everywhere, and a missing score is treated as 0
by `compute_lens_averages` and by the renderer — but as 3 (not 0) by
`compute_score_distribution`. -/
theorem C3_missing_defaults (f : Finding) (tc : (String → ℚ) × (String → ℕ))
    (d : ℤ → ℕ) (pd : String → ℕ) :
    (f.score = none →
      lens_step tc f = lens_step tc { f with score := some 0 } ∧
      score_dist_step d f = score_dist_step d { f with score := some 3 } ∧
      render_finding_item f = render_finding_item { f with score := some 0 }) ∧
    (f.priority = none →
      priority_dist_step pd f = priority_dist_step pd { f with priority := some "P2" } ∧
      render_finding_item f = render_finding_item { f with priority := some "P2" }) ∧
    (f.issue = none →
      render_finding_item f = render_finding_item { f with issue := some "" }) ∧
    (f.recommendation = none →
      render_finding_item f = render_finding_item { f with recommendation := some "" }) := by
  refine ⟨fun h => ⟨?_, ?_, ?_⟩, fun h => ⟨?_, ?_⟩, fun h => ?_, fun h => ?_⟩ <;>
    simp [lens_step, score_dist_step, render_finding_item, priority_dist_step, h]

/-- Witness for C3: the substitutions at the all-missing finding. -/
theorem C3_witness :
    lens_step (fun _ => 0, fun _ => 0) {} =
      lens_step (fun _ => 0, fun _ => 0) { score := some 0 } ∧
    score_dist_step (fun _ => 0) {} = score_dist_step (fun _ => 0) { score := some 3 } ∧
    render_finding_item {} = render_finding_item { score := some 0 } :=
  (C3_missing_defaults {} (fun _ => 0, fun _ => 0) (fun _ => 0) (fun _ => 0)).1 rfl

/-- One page whose single finding has no score. -/
def noScorePages : List Page := [{ findings := some [{ lens := some "clarity" }] }]

/-- C3 counterexample: the claim says a finding with no score contributes a
zero-valued score to every aggregate, but `compute_score_distribution`
defaults a missing score to 3: the finding lands in bucket 3, not in the
bucket 1 that a clamped zero score would produce. -/
theorem C3_counterexample :
    ({ lens := some "clarity" } : Finding).score = none ∧
    compute_score_distribution noScorePages 3 = 1 ∧
    compute_score_distribution noScorePages 1 = 0 := by
  have hsk : scoreKey ({ lens := some "clarity" } : Finding) = 3 := by
    rw [scoreKey]
    simp only [Option.getD_none]
    rw [bround_three]
    decide
  refine ⟨rfl, ?_, ?_⟩
  · rw [compute_score_distribution_eq]
    simp [allFindings, noScorePages, hsk]
  · rw [compute_score_distribution_eq]
    simp [allFindings, noScorePages, hsk]

/-- C7: the rendered top findings section holds at most 5 entries however
long `top_findings` is, and those entries are the rendered first entries of
the input list in input order (a prefix of rendering the whole list). -/
theorem C7_top_findings_cap (tf : List TopFinding) :
    (top_findings_entries tf).length ≤ 5 ∧
    top_findings_entries tf <+: tf.map render_top_finding := by
  constructor
  · rw [top_findings_entries, List.length_map]
    exact List.length_take_le 5 tf
  · rw [top_findings_entries, List.map_take]
    exact ⟨(tf.map render_top_finding).drop 5, List.take_append_drop 5 _⟩

/-- C9 (amended): the screenshot area is omitted entirely when no screenshot
is present; otherwise a tab bar and the panels are rendered with exactly one
tab button and one panel per present screenshot — in particular a lone
screenshot gets a single panel but still one tab control, not none. -/
theorem C9_screenshot_area (page_id page_type dimg mimg : String) :
    (dimg = "" → mimg = "" → screenshot_html page_id page_type dimg mimg = "") ∧
    (screenshot_tab_buttons page_id (dimg != "") (mimg != "")).length
        = (if dimg = "" then 0 else 1) + (if mimg = "" then 0 else 1) ∧
    (screenshot_panels page_id page_type dimg mimg (dimg != "") (mimg != "")).length
        = (if dimg = "" then 0 else 1) + (if mimg = "" then 0 else 1) := by
  refine ⟨?_, ?_, ?_⟩
  · intro hd hm
    rw [screenshot_html]
    simp [hd, hm]
  · rw [screenshot_tab_buttons]
    by_cases hd : dimg = "" <;> by_cases hm : mimg = "" <;> simp [hd, hm]
  · rw [screenshot_panels]
    by_cases hd : dimg = "" <;> by_cases hm : mimg = "" <;> simp [hd, hm]

/-- Witness for C9: with both screenshots absent the area is omitted, and
the conjuncts evaluate at a present desktop screenshot. -/
theorem C9_witness :
    screenshot_html "homepage" "Homepage" "" "" = "" ∧
    (screenshot_tab_buttons "homepage" (("data:image/png;base64,AAAA" : String) != "")
        ((("" : String)) != "")).length
      = (if ("data:image/png;base64,AAAA" : String) = "" then 0 else 1)
        + (if ("" : String) = "" then 0 else 1) :=
  ⟨(C9_screenshot_area "homepage" "Homepage" "" "").1 rfl rfl,
   (C9_screenshot_area "homepage" "Homepage" "data:image/png;base64,AAAA" "").2.1⟩

/-- A file system holding only the desktop screenshot of the home page. -/
def cexFs : String → Option String :=
  fun p => if p = "/shots/home.png" then some "data:image/png;base64,AAAA" else none

/-- C9 counterexample: with exactly one screenshot present (desktop only),
the claim says the single panel comes with no tab controls, but the rendered
area does contain a tab button. -/
theorem C9_counterexample :
    (encode_image cexFs "/shots/home.png" != "") = true ∧
    (encode_image cexFs "/shots/home-mobile.png" != "") = false ∧
    ContainsSub
      (screenshot_html "homepage" "Homepage"
        (encode_image cexFs "/shots/home.png")
        (encode_image cexFs "/shots/home-mobile.png"))
      "<button class=\"screenshot-tab" := by
  have hd : encode_image cexFs "/shots/home.png" = "data:image/png;base64,AAAA" := by decide
  have hm : encode_image cexFs "/shots/home-mobile.png" = "" := by decide
  refine ⟨by rw [hd]; decide, by rw [hm]; decide, ?_⟩
  rw [hd, hm, screenshot_html]
  simp only [String.join, List.foldl]
  rw [if_pos (by decide :
    ((("data:image/png;base64,AAAA" : String) != ""
      || ("" : String) != "") = true))]
  apply containsSub_appendR
  apply containsSub_appendR
  apply containsSub_appendL
  apply containsSub_appendL
  apply containsSub_appendR
  apply containsSub_appendR
  exact ⟨"", " active\" onclick=\"switchScreenshot(this, \x27", by decide⟩

/-- The overall score, formatted to one decimal, always appears inside the
header gauge of the output. -/
theorem gauge_in_output (env : Env) (d : AuditData) :
    ContainsSub (generate_html env d) (fmt1 (d.overall_score.getD 0)) := by
  simp only [generate_html, header_html, svg_score_gauge]
  apply containsSub_appendR
  apply containsSub_appendR
  apply containsSub_appendR
  apply containsSub_appendR
  apply containsSub_appendR
  apply containsSub_appendR
  apply containsSub_appendR
  apply containsSub_appendR
  apply containsSub_appendR
  apply containsSub_appendR
  apply containsSub_appendR
  apply containsSub_appendL
  apply containsSub_appendR
  apply containsSub_appendR
  apply containsSub_appendR
  apply containsSub_appendR
  apply containsSub_appendR
  apply containsSub_appendR
  apply containsSub_appendR
  apply containsSub_appendR
  apply containsSub_appendR
  apply containsSub_appendR
  apply containsSub_appendR
  apply containsSub_appendR
  apply containsSub_appendR
  apply containsSub_appendR
  apply containsSub_appendR
  apply containsSub_appendR
  apply containsSub_appendR
  apply containsSub_appendL
  apply containsSub_appendR
  apply containsSub_appendL
  exact containsSub_refl _

theorem fmt1_sixteen_fifths : fmt1 ((16 : ℚ)/5) = "3.2" := by
  have h32 : bround ((16 : ℚ)/5 * 10) = 32 := by
    have h1 : ((16 : ℚ)/5 * 10) = ((32 : ℤ) : ℚ) := by push_cast; norm_num
    rw [h1, bround_intCast]
  simp only [fmt1, h32]
  rfl

/-- C8: with an empty pages list the lens averages, score distribution and
priority distribution are all zero, no page sections and no page-nav links
are produced, and the rendered overall score still appears in the output. -/
theorem C8_empty_pages (env : Env) (d : AuditData) (h : d.pages = some []) :
    compute_lens_averages (d.pages.getD []) = lens_keys.map (fun k => (k, 0)) ∧
    (∀ k : ℤ, compute_score_distribution (d.pages.getD []) k = 0) ∧
    (∀ t : String, compute_priority_distribution (d.pages.getD []) t = 0) ∧
    page_sections env (d.pages.getD []) = [] ∧
    pages_html env (d.pages.getD []) = "" ∧
    page_nav_links (d.pages.getD []) = [] ∧
    page_nav_html (d.pages.getD []) = "" ∧
    ContainsSub (generate_html env d) (fmt1 (d.overall_score.getD 0)) := by
  rw [h]
  refine ⟨?_, ?_, ?_, ?_, ?_, ?_, ?_, gauge_in_output env d⟩
  · simp [compute_lens_averages]
  · intro k
    simp [compute_score_distribution]
  · intro t
    simp [compute_priority_distribution]
  · simp [page_sections]
  · simp [pages_html, page_sections, String.join]
  · simp [page_nav_links]
  · simp [page_nav_html, page_nav_items, page_nav_links, String.join]

/-- The runtime environment of the C8 witness. -/
def env8 : Env := { now := "2026-10-12", fs := fun _ => none }

/-- The input of the spec example: `pages=[]`, `overall_score=3.2`. -/
def d8 : AuditData := { overall_score := some (16/5), pages := some [] }

/-- Witness for C8 at the spec example: the output contains "3.2". -/
theorem C8_witness :
    d8.pages = some [] ∧ fmt1 ((16 : ℚ)/5) = "3.2" ∧
    ContainsSub (generate_html env8 d8) "3.2" := by
  have hf : fmt1 ((16 : ℚ)/5) = "3.2" := fmt1_sixteen_fifths
  refine ⟨rfl, hf, ?_⟩
  have h8 := (C8_empty_pages env8 d8 rfl).2.2.2.2.2.2.2
  have hov : d8.overall_score.getD 0 = (16 : ℚ)/5 := rfl
  rw [hov, hf] at h8
  exact h8

/-- C4 (amended): the output is a deterministic function of the document,
the clock and the file system; when the document carries an `audit_date`
(so the clock default is unused) two renderings over the same file system
are byte-identical even at different times. -/
theorem C4_deterministic (env1 env2 : Env) (d : AuditData)
    (hdate : d.audit_date ≠ none) (hfs : env1.fs = env2.fs) :
    generate_html env1 d = generate_html env2 d := by
  cases hda : d.audit_date with
  | none => exact absurd hda hdate
  | some a =>
    cases env1 with
    | mk n1 f1 =>
      cases env2 with
      | mk n2 f2 =>
        simp only at hfs
        subst hfs
        have hps : pages_html ⟨n1, f1⟩ (d.pages.getD [])
            = pages_html ⟨n2, f1⟩ (d.pages.getD []) := by
          simp [pages_html, page_sections, render_page_section]
        simp only [generate_html, hda, Option.getD_some, hps]

/-- A document that carries its audit date. -/
def dDated : AuditData := { audit_date := some "2026-02-14" }

/-- Witness for C4: two renderings of a dated document on different days
coincide. -/
theorem C4_witness :
    generate_html { now := "2026-10-12", fs := fun _ => none } dDated
      = generate_html { now := "2026-10-13", fs := fun _ => none } dDated :=
  C4_deterministic _ _ dDated (by simp [dDated]) rfl

theorem fmt1_zero : fmt1 0 = "0.0" := by
  have h0 : ((0 : ℚ) * 10) = 0 := by norm_num
  simp only [fmt1, h0, bround_zero]
  rfl

theorem ratRepr_zero : ratRepr 0 = "0" := rfl

theorem natStr_zero : natStr 0 = "0" := rfl

theorem natStr_120 : natStr 120 = "120" := rfl

theorem natStr_130 : natStr 130 = "130" := rfl

theorem score_color_one : score_color 1 = "#ef4444" := by
  rw [score_color]
  norm_num

theorem score_color_two : score_color 2 = "#f97316" := by
  rw [score_color]
  norm_num

theorem score_color_three : score_color 3 = "#f59e0b" := by
  rw [score_color]
  norm_num

theorem score_color_four : score_color 4 = "#84cc16" := by
  rw [score_color]
  norm_num

theorem score_color_five : score_color 5 = "#22c55e" := by
  rw [score_color]
  norm_num

/-- A document with no audit date: the renderer falls back to the clock. -/
def dNoDate : AuditData := {}

/-- A first rendering time. -/
def envA : Env := { now := "2026-10-12", fs := fun _ => none }

/-- A second rendering time, one day later. -/
def envB : Env := { now := "2026-10-13", fs := fun _ => none }

set_option maxRecDepth 4000 in
/-- C4 counterexample: a document without `audit_date` renders the current
date into the header, so rendering the same input on two different days
yields different bytes — the transformation is not a function of the input
document alone. -/
theorem C4_counterexample : generate_html envA dNoDate ≠ generate_html envB dNoDate := by
  intro h
  simp [generate_html, header_html, exec_html, analytics_html, top_section,
    top_findings_html, top_findings_entries, page_nav_html, page_nav_items,
    page_nav_links, pages_html, page_sections, cross_html, action_html,
    action_cards, footer_html, CSS_STYLES, js_block, json_list, json_items,
    json_str, svg_score_gauge, svg_priority_donut, compute_lens_averages,
    compute_score_distribution, compute_priority_distribution,
    critical_high_count, lens_keys, dNoDate, envA, envB,
    List.lookup, String.join, fmt1_zero, ratRepr_zero, natStr_zero,
    natStr_120, natStr_130,
    score_color_one, score_color_two, score_color_three, score_color_four,
    score_color_five] at h
